import Mathlib

/-!
Verification of the Discord OAuth2 callback backend (`app.py`) of the
nzpacks-website repository.

The embedding models the `/callback` handler (`discord_callback`) and the
`/frontend_redirect` handler (`frontend_redirect`) as pure functions of
the request data, the outcomes of the four outbound calls, and the
process configuration.  Python strings that may be `None` are modelled as
`Option String`; Python truthiness of such a value is `truthy`.  A Python
exception that no `except` clause catches is modelled as the
`Outcome.exception` constructor.
-/

namespace NzPacks

/-- Python truthiness of a string-or-None value: `None` and `""` are falsy. -/
def truthy : Option String → Bool
  | none => false
  | some s => !(s == "")

/-- Uncaught Python exception kinds that the callback can raise. -/
inductive PyError where
  | typeError
  | valueError
deriving DecidableEq, Repr

/-- Value of a decimal digit character, `none` on a non-digit. -/
def digitVal? (c : Char) : Option Nat :=
  if c.isDigit then some (c.toNat - 48) else none

/-- Left-to-right decimal parse of a character list. -/
def parseDigits : List Char → Nat → Option Nat
  | [], acc => some acc
  | c :: cs, acc =>
    match digitVal? c with
    | some d => parseDigits cs (acc * 10 + d)
    | none => none

/-- Decimal parse of a string; `none` for `""` and for any non-digit
character. -/
def pyNat? (s : String) : Option Nat :=
  if s.data.isEmpty then none else parseDigits s.data 0

/-- `int(x)` on a string-or-None value holding a canonical decimal numeral:
`int(None)` raises `TypeError`, `int(s)` on a non-numeral (for example `""`)
raises `ValueError`. -/
def pyInt : Option String → Except PyError Nat
  | none => .error .typeError
  | some s =>
    match pyNat? s with
    | some n => .ok n
    | none => .error .valueError

/-- Python `f"...{x}..."` rendering of a string-or-None value. -/
def pyShow : Option String → String
  | none => "None"
  | some s => s

/-- The JSON body of a 2xx `GET /users/@me` response, as read by the code
via `user_info.get(...)` (absent field = `None`). -/
structure UserInfo where
  id : Option String
  username : Option String
  avatar : Option String
  global_name : Option String
  discriminator : Option String
deriving DecidableEq, Repr

/-- `display_name = global_name if global_name else username` (app.py line 122). -/
def displayNameOf (u : UserInfo) : Option String :=
  if truthy u.global_name then u.global_name else u.username

/-- Profile-picture URL derivation (app.py lines 123-134).  The modern-system
branch embeds Python line 134, `int(discord_user_id) >> 22 % 6`: Python
parses `%` tighter than `>>`, so the computed index is
`id >>> (22 % 6) = id >>> 4`, written here with the parenthesisation Python
actually uses.  `int(...)` can raise, so the result is an `Except`. -/
def avatarUrlOf (u : UserInfo) : Except PyError String :=
  if truthy u.avatar then
    .ok ("https://cdn.discordapp.com/avatars/" ++ pyShow u.id ++ "/"
      ++ (u.avatar.getD "") ++ ".png")
  else if truthy u.discriminator && !(u.discriminator.getD "" == "0") then
    match pyInt u.discriminator with
    | .error e => .error e
    | .ok d =>
      .ok ("https://cdn.discordapp.com/embed/avatars/" ++ toString (d % 5) ++ ".png")
  else
    match pyInt u.id with
    | .error e => .error e
    | .ok n =>
      .ok ("https://cdn.discordapp.com/embed/avatars/" ++ toString (n >>> (22 % 6)) ++ ".png")

/-- Outcome of one outbound HTTP call: `ok` is a 2xx response together with
its parsed JSON body, `err` is everything `raise_for_status` or the network
turns into a `RequestException`. -/
inductive HttpResult (α : Type) where
  | ok : α → HttpResult α
  | err : HttpResult α
deriving DecidableEq, Repr

/-- The JSON body of a 2xx token-endpoint response, as read via
`token_json.get("access_token")`. -/
structure TokenJson where
  access_token : Option String
deriving DecidableEq, Repr

/-- The JSON body of a 2xx guild-member response; `member_data.get("roles", [])`
defaults an absent field to the empty list. -/
structure MemberData where
  roles : Option (List String)
deriving DecidableEq, Repr

/-- Process configuration read from the environment (app.py lines 55-57):
`REQUIRED_GUILD_ID` and `DISCORD_BOT_TOKEN` may be unset (`None`). -/
structure Config where
  requiredGuildId : Option String
  botToken : Option String
deriving DecidableEq, Repr

/-- `REQUIRED_ROLE_ID` (app.py line 56), a fixed literal in the source. -/
def REQUIRED_ROLE_ID : String := "1381230703504527471"

/-- The outbound calls the callback can perform, in source order. -/
inductive Call where
  | tokenExchange
  | userInfoFetch
  | memberFetch
  | firebaseCreate
deriving DecidableEq, Repr

/-- The query parameters of a redirect to `/frontend_redirect`; `none` means
the parameter is not passed. -/
structure RedirectArgs where
  token : Option String
  discord_user_id : Option String
  discord_username : Option String
  discord_pfp : Option String
  status : Option String
deriving DecidableEq, Repr

/-- A redirect to `/frontend_redirect` carrying only a `status` parameter. -/
def mkStatusRedirect (s : String) : RedirectArgs :=
  ⟨none, none, none, none, some s⟩

/-- How one execution of `discord_callback` terminates: a redirect to
`/frontend_redirect`, or an uncaught Python exception (HTTP 500). -/
inductive Outcome where
  | redirect : RedirectArgs → Outcome
  | exception : PyError → Outcome
deriving DecidableEq, Repr

/-- The arguments of an `auth.create_custom_token` invocation
(app.py lines 175-179). -/
structure Issuance where
  subject : String
  discord_username : Option String
  discord_pfp : String
  has_role : Bool
deriving DecidableEq, Repr

/-- One execution of `discord_callback`: its terminal outcome, the outbound
calls it performed in order, and the trust-token issuance invocation if one
was made. -/
structure CallbackResult where
  outcome : Outcome
  calls : List Call
  issuance : Option Issuance
deriving DecidableEq, Repr

/-- The environment-dependent inputs of one `/callback` request: the `code`
query parameter and the outcome each outbound call would have if performed. -/
structure CallbackInput where
  code : Option String
  tokenResp : HttpResult TokenJson
  userResp : HttpResult UserInfo
  memberResp : HttpResult MemberData
  firebaseOk : Bool
  firebaseToken : String
deriving DecidableEq, Repr

/-- Result of the role-verification block (app.py lines 145-166):
`verified` is the value of `has_required_role` after the block, `earlyStatus`
a redirect status returned from inside the block, `fetched` whether the
guild-member network call was performed. -/
structure RoleCheckResult where
  verified : Bool
  earlyStatus : Option String
  fetched : Bool
deriving DecidableEq, Repr

/-- The role-verification block (app.py lines 145-166): with both config
values present it fetches the guild member and tests
`REQUIRED_ROLE_ID in member_data.get("roles", [])`; on a request error it
returns `error_role_check_failed`; with config missing it performs no call
and returns `error_role_check_config_missing`. -/
def verifyRole (cfg : Config) (memberResp : HttpResult MemberData) : RoleCheckResult :=
  if truthy cfg.requiredGuildId && truthy cfg.botToken then
    match memberResp with
    | .ok md => ⟨(md.roles.getD []).contains REQUIRED_ROLE_ID, none, true⟩
    | .err => ⟨false, some "error_role_check_failed", true⟩
  else
    ⟨false, some "error_role_check_config_missing", false⟩

/-- The `/callback` handler `discord_callback` (app.py lines 73-190), as a
function of the configuration and the request inputs.  Control flow follows
the source line by line; note that the avatar-URL computation (lines
123-134, inside a `try` that catches only `RequestException`) happens
before the `discord_user_id` check of line 140, so a `TypeError` or
`ValueError` raised there escapes uncaught. -/
def discord_callback (cfg : Config) (inp : CallbackInput) : CallbackResult :=
  if truthy inp.code = false then
    ⟨.redirect (mkStatusRedirect "error_no_code"), [], none⟩
  else
    match inp.tokenResp with
    | .err =>
      ⟨.redirect (mkStatusRedirect "error_token_exchange"), [.tokenExchange], none⟩
    | .ok tj =>
      if truthy tj.access_token = false then
        ⟨.redirect (mkStatusRedirect "error_no_access_token"), [.tokenExchange], none⟩
      else
        match inp.userResp with
        | .err =>
          ⟨.redirect (mkStatusRedirect "error_fetch_user_info"),
            [.tokenExchange, .userInfoFetch], none⟩
        | .ok u =>
          match avatarUrlOf u with
          | .error e =>
            ⟨.exception e, [.tokenExchange, .userInfoFetch], none⟩
          | .ok pfp =>
            if truthy u.id = false then
              ⟨.redirect (mkStatusRedirect "error_missing_user_id"),
                [.tokenExchange, .userInfoFetch], none⟩
            else
              let uid := u.id.getD ""
              let display_name := displayNameOf u
              let rc := verifyRole cfg inp.memberResp
              let calls := [Call.tokenExchange, Call.userInfoFetch]
                ++ (if rc.fetched then [Call.memberFetch] else [])
              match rc.earlyStatus with
              | some s => ⟨.redirect (mkStatusRedirect s), calls, none⟩
              | none =>
                if rc.verified = false then
                  ⟨.redirect (mkStatusRedirect "unauthorized_role"), calls, none⟩
                else
                  let iss : Issuance := ⟨uid, display_name, pfp, true⟩
                  if inp.firebaseOk then
                    ⟨.redirect ⟨some inp.firebaseToken, some uid, display_name,
                        some pfp, some "success"⟩,
                      calls ++ [Call.firebaseCreate], some iss⟩
                  else
                    ⟨.redirect (mkStatusRedirect "error_firebase_token"),
                      calls ++ [Call.firebaseCreate], some iss⟩

/-- The fixed status enumeration the callback emits (app.py lines 80-187). -/
def callbackStatuses : List String :=
  ["error_no_code", "error_token_exchange", "error_no_access_token",
   "error_fetch_user_info", "error_missing_user_id", "error_role_check_failed",
   "error_role_check_config_missing", "unauthorized_role",
   "error_firebase_token", "success"]

/-- Hard-coded frontend base URL (app.py line 201). -/
def FRONTEND_BASE_URL : String := "https://nzpacks-website.vercel.app"

/-- The five parameter values `frontend_redirect` resolves from the request
(app.py lines 204-208): each of the first four defaults to `""`, `status`
defaults to `"error"`. -/
structure ResolvedParams where
  token : String
  discord_user_id : String
  discord_username : String
  discord_pfp : String
  status : String
deriving DecidableEq, Repr

/-- Parameter resolution of `frontend_redirect` (app.py lines 204-208). -/
def resolveParams (a : RedirectArgs) : ResolvedParams :=
  ⟨a.token.getD "", a.discord_user_id.getD "", a.discord_username.getD "",
   a.discord_pfp.getD "", a.status.getD "error"⟩

/-- The client redirect URL `frontend_redirect` embeds in its HTML page
(app.py lines 211-218). -/
def frontend_redirect_url (a : RedirectArgs) : String :=
  let p := resolveParams a
  FRONTEND_BASE_URL ++ "#"
    ++ "token=" ++ p.token
    ++ "&discord_user_id=" ++ p.discord_user_id
    ++ "&discord_username=" ++ p.discord_username
    ++ "&discord_pfp=" ++ p.discord_pfp
    ++ "&status=" ++ p.status

/-! ## Claim theorems -/

/-- C7: for every callback request whose `code` query parameter is absent or
empty, the callback terminates with status `error_no_code` without performing
any outbound call. -/
theorem c7_no_code_terminates_without_calls (cfg : Config) (inp : CallbackInput)
    (h : truthy inp.code = false) :
    discord_callback cfg inp =
      ⟨.redirect (mkStatusRedirect "error_no_code"), [], none⟩ := by
  simp [discord_callback, h]

/-- C7 witness: concrete run with a missing `code` parameter. -/
theorem c7_witness :
    truthy (none : Option String) = false ∧
    discord_callback ⟨some "g", some "b"⟩
        ⟨none, .ok ⟨some "t"⟩, .err, .err, true, "tok"⟩ =
      ⟨.redirect (mkStatusRedirect "error_no_code"), [], none⟩ :=
  ⟨rfl, c7_no_code_terminates_without_calls ⟨some "g", some "b"⟩
    ⟨none, .ok ⟨some "t"⟩, .err, .err, true, "tok"⟩ rfl⟩

/-- C1: at externalId `12345678901234` with no custom avatar and
discriminator `"0"`, the code selects default-avatar index
`12345678901234 >>> (22 % 6) = 771604931327` (Python parses
`int(id) >> 22 % 6` as `id >> (22 % 6)`), whereas the claimed index
`(12345678901234 >>> 22) % 6` equals `1`. -/
theorem c1_modern_avatar_precedence_bug :
    avatarUrlOf ⟨some "12345678901234", some "user", none, none, some "0"⟩ =
      .ok "https://cdn.discordapp.com/embed/avatars/771604931327.png" ∧
    (12345678901234 >>> 22) % 6 = 1 ∧
    (771604931327 : Nat) ≠ 1 := by
  refine ⟨rfl, by decide, by decide⟩

/-- C8: with no custom avatar and a discriminator that is present, non-empty
and not `"0"`, the derived avatar URL selects default-avatar index
`discriminator mod 5`. -/
theorem c8_legacy_avatar_mod_five (u : UserInfo) (d : Nat)
    (hav : truthy u.avatar = false)
    (hd : truthy u.discriminator = true)
    (hne : u.discriminator.getD "" ≠ "0")
    (hint : pyInt u.discriminator = .ok d) :
    avatarUrlOf u =
      .ok ("https://cdn.discordapp.com/embed/avatars/" ++ toString (d % 5) ++ ".png") := by
  simp [avatarUrlOf, hav, hd, hne, hint]

/-- C8 witness: discriminator `"1234"` selects default-avatar index `4`. -/
theorem c8_witness :
    truthy (some "1234") = true ∧
    avatarUrlOf ⟨some "1", some "u", none, none, some "1234"⟩ =
      .ok "https://cdn.discordapp.com/embed/avatars/4.png" := by
  have h := c8_legacy_avatar_mod_five ⟨some "1", some "u", none, none, some "1234"⟩
    1234 rfl rfl (by decide) rfl
  exact ⟨rfl, h.trans rfl⟩

/-- C2: on a 2xx user-info body with no `id`, no custom avatar and
discriminator `"0"`, the callback raises an uncaught `TypeError` at
`int(discord_user_id)` (app.py line 134) before the missing-user-id check of
line 140: the run ends in an unconverted exception, not in a redirect with
status `error_missing_user_id`. -/
theorem c2_missing_id_uncaught_exception :
    discord_callback ⟨some "g", some "b"⟩
        ⟨some "abc", .ok ⟨some "t"⟩, .ok ⟨none, some "u", none, none, some "0"⟩,
         .ok ⟨some []⟩, true, "tok"⟩ =
      ⟨.exception .typeError, [.tokenExchange, .userInfoFetch], none⟩ ∧
    ∀ a, (discord_callback ⟨some "g", some "b"⟩
        ⟨some "abc", .ok ⟨some "t"⟩, .ok ⟨none, some "u", none, none, some "0"⟩,
         .ok ⟨some []⟩, true, "tok"⟩).outcome ≠ Outcome.redirect a := by
  refine ⟨rfl, ?_⟩
  intro a h
  rw [show (discord_callback ⟨some "g", some "b"⟩
      ⟨some "abc", .ok ⟨some "t"⟩, .ok ⟨none, some "u", none, none, some "0"⟩,
       .ok ⟨some []⟩, true, "tok"⟩).outcome = .exception .typeError from rfl] at h
  exact Outcome.noConfusion h

/-- C3 counterexample: a fully successful run whose user-info body has an
empty `username` and no `global_name` resolves an identity whose display
name is the empty string, refuting "displayName is never empty". -/
theorem c3_empty_display_name_counterexample :
    (discord_callback ⟨some "g", some "b"⟩
        ⟨some "abc", .ok ⟨some "t"⟩,
         .ok ⟨some "123", some "", some "hash", none, some "0"⟩,
         .ok ⟨some [REQUIRED_ROLE_ID]⟩, true, "tok"⟩).outcome =
      Outcome.redirect ⟨some "tok", some "123", some "",
        some "https://cdn.discordapp.com/avatars/123/hash.png", some "success"⟩ ∧
    displayNameOf ⟨some "123", some "", some "hash", none, some "0"⟩ = some "" ∧
    truthy (some "") = false := by
  refine ⟨rfl, rfl, rfl⟩

/-- C3 (amended): displayName prefers a present and non-empty `global_name`
and otherwise falls back to `username`; it is non-empty whenever `username`
is non-empty. -/
theorem c3_display_name_fallback (u : UserInfo)
    (h : truthy u.username = true) :
    displayNameOf u = (if truthy u.global_name then u.global_name else u.username) ∧
    truthy (displayNameOf u) = true := by
  refine ⟨rfl, ?_⟩
  cases hg : truthy u.global_name
  · simp [displayNameOf, hg, h]
  · simp [displayNameOf, hg]

/-- C3 witness: global name `"Foo"` plus username `"bar"` gives `"Foo"`. -/
theorem c3_witness :
    truthy (some "bar") = true ∧
    displayNameOf ⟨some "1", some "bar", none, some "Foo", some "0"⟩ = some "Foo" ∧
    truthy (displayNameOf ⟨some "1", some "bar", none, some "Foo", some "0"⟩) = true := by
  have h := c3_display_name_fallback ⟨some "1", some "bar", none, some "Foo", some "0"⟩ rfl
  exact ⟨rfl, h.1.trans (by decide), h.2⟩

/-- C4: when the required guild id or the bot token is absent, the
role-verification block performs no network call and the callback (having
reached it) terminates with status `error_role_check_config_missing`. -/
theorem c4_config_missing_fails_closed (cfg : Config) (inp : CallbackInput)
    (tj : TokenJson) (u : UserInfo) (pfp : String)
    (hcfg : (truthy cfg.requiredGuildId && truthy cfg.botToken) = false)
    (hcode : truthy inp.code = true)
    (htok : inp.tokenResp = .ok tj)
    (hacc : truthy tj.access_token = true)
    (huser : inp.userResp = .ok u)
    (hav : avatarUrlOf u = .ok pfp)
    (hid : truthy u.id = true) :
    verifyRole cfg inp.memberResp =
      ⟨false, some "error_role_check_config_missing", false⟩ ∧
    discord_callback cfg inp =
      ⟨.redirect (mkStatusRedirect "error_role_check_config_missing"),
       [.tokenExchange, .userInfoFetch], none⟩ ∧
    Call.memberFetch ∉ (discord_callback cfg inp).calls := by
  have h1 : verifyRole cfg inp.memberResp =
      ⟨false, some "error_role_check_config_missing", false⟩ := by
    simp [verifyRole, hcfg]
  have h2 : discord_callback cfg inp =
      ⟨.redirect (mkStatusRedirect "error_role_check_config_missing"),
       [.tokenExchange, .userInfoFetch], none⟩ := by
    simp [discord_callback, hcode, htok, hacc, huser, hav, hid, h1]
  refine ⟨h1, h2, ?_⟩
  rw [h2]
  decide

/-- C4 witness: bot token unset, all earlier pipeline steps successful. -/
theorem c4_witness :
    discord_callback ⟨some "g", none⟩
        ⟨some "abc", .ok ⟨some "t"⟩,
         .ok ⟨some "123", some "alice", some "hash", none, some "0"⟩,
         .ok ⟨some [REQUIRED_ROLE_ID]⟩, true, "tok"⟩ =
      ⟨.redirect (mkStatusRedirect "error_role_check_config_missing"),
       [.tokenExchange, .userInfoFetch], none⟩ :=
  (c4_config_missing_fails_closed ⟨some "g", none⟩
    ⟨some "abc", .ok ⟨some "t"⟩,
     .ok ⟨some "123", some "alice", some "hash", none, some "0"⟩,
     .ok ⟨some [REQUIRED_ROLE_ID]⟩, true, "tok"⟩
    ⟨some "t"⟩ ⟨some "123", some "alice", some "hash", none, some "0"⟩
    "https://cdn.discordapp.com/avatars/123/hash.png"
    rfl rfl rfl rfl rfl rfl rfl).2.1

/-- C5: on a 2xx guild-member response the role check verifies exactly when
`REQUIRED_ROLE_ID` is in the member role set, and when it is absent the
callback terminates with status `unauthorized_role`. -/
theorem c5_role_membership_decides (cfg : Config) (inp : CallbackInput)
    (tj : TokenJson) (u : UserInfo) (pfp : String) (md : MemberData)
    (hcfg : (truthy cfg.requiredGuildId && truthy cfg.botToken) = true)
    (hcode : truthy inp.code = true)
    (htok : inp.tokenResp = .ok tj)
    (hacc : truthy tj.access_token = true)
    (huser : inp.userResp = .ok u)
    (hav : avatarUrlOf u = .ok pfp)
    (hid : truthy u.id = true)
    (hmem : inp.memberResp = .ok md) :
    ((verifyRole cfg inp.memberResp).verified = true ↔
      REQUIRED_ROLE_ID ∈ md.roles.getD []) ∧
    (REQUIRED_ROLE_ID ∉ md.roles.getD [] →
      discord_callback cfg inp =
        ⟨.redirect (mkStatusRedirect "unauthorized_role"),
         [.tokenExchange, .userInfoFetch, .memberFetch], none⟩) := by
  have h1 : verifyRole cfg inp.memberResp =
      ⟨(md.roles.getD []).contains REQUIRED_ROLE_ID, none, true⟩ := by
    simp [verifyRole, hcfg, hmem]
  constructor
  · rw [h1]
    exact List.elem_iff
  · intro habs
    have hc : (md.roles.getD []).contains REQUIRED_ROLE_ID = false := by
      simpa using habs
    have h2 : verifyRole cfg inp.memberResp = ⟨false, none, true⟩ := by
      rw [h1, hc]
    simp [discord_callback, hcode, htok, hacc, huser, hav, hid, h2]

/-- C5 witness: the required role present in a three-element role set makes
the check verify; a role set without it ends in `unauthorized_role`. -/
theorem c5_witness :
    (verifyRole ⟨some "g", some "b"⟩
        (.ok ⟨some ["A", REQUIRED_ROLE_ID, "B"]⟩)).verified = true ∧
    discord_callback ⟨some "g", some "b"⟩
        ⟨some "abc", .ok ⟨some "t"⟩,
         .ok ⟨some "123", some "alice", some "hash", none, some "0"⟩,
         .ok ⟨some ["A", "B"]⟩, true, "tok"⟩ =
      ⟨.redirect (mkStatusRedirect "unauthorized_role"),
       [.tokenExchange, .userInfoFetch, .memberFetch], none⟩ := by
  constructor
  · exact (c5_role_membership_decides ⟨some "g", some "b"⟩
      ⟨some "abc", .ok ⟨some "t"⟩,
       .ok ⟨some "123", some "alice", some "hash", none, some "0"⟩,
       .ok ⟨some ["A", REQUIRED_ROLE_ID, "B"]⟩, true, "tok"⟩
      ⟨some "t"⟩ ⟨some "123", some "alice", some "hash", none, some "0"⟩
      "https://cdn.discordapp.com/avatars/123/hash.png"
      ⟨some ["A", REQUIRED_ROLE_ID, "B"]⟩
      rfl rfl rfl rfl rfl rfl rfl rfl).1.mpr (by decide)
  · exact (c5_role_membership_decides ⟨some "g", some "b"⟩
      ⟨some "abc", .ok ⟨some "t"⟩,
       .ok ⟨some "123", some "alice", some "hash", none, some "0"⟩,
       .ok ⟨some ["A", "B"]⟩, true, "tok"⟩
      ⟨some "t"⟩ ⟨some "123", some "alice", some "hash", none, some "0"⟩
      "https://cdn.discordapp.com/avatars/123/hash.png"
      ⟨some ["A", "B"]⟩
      rfl rfl rfl rfl rfl rfl rfl rfl).2 (by decide)

/-- C9: a 2xx guild-member body with no `roles` field at all is treated as an
empty role set, and the callback terminates with status `unauthorized_role`
rather than an infrastructure error or an exception. -/
theorem c9_absent_roles_field_fail_closed (cfg : Config) (inp : CallbackInput)
    (tj : TokenJson) (u : UserInfo) (pfp : String) (md : MemberData)
    (hcfg : (truthy cfg.requiredGuildId && truthy cfg.botToken) = true)
    (hcode : truthy inp.code = true)
    (htok : inp.tokenResp = .ok tj)
    (hacc : truthy tj.access_token = true)
    (huser : inp.userResp = .ok u)
    (hav : avatarUrlOf u = .ok pfp)
    (hid : truthy u.id = true)
    (hmem : inp.memberResp = .ok md)
    (hroles : md.roles = none) :
    md.roles.getD [] = [] ∧
    (verifyRole cfg inp.memberResp).verified = false ∧
    discord_callback cfg inp =
      ⟨.redirect (mkStatusRedirect "unauthorized_role"),
       [.tokenExchange, .userInfoFetch, .memberFetch], none⟩ := by
  have h1 : verifyRole cfg inp.memberResp = ⟨false, none, true⟩ := by
    simp [verifyRole, hcfg, hmem, hroles]
  refine ⟨by simp [hroles], by rw [h1], ?_⟩
  simp [discord_callback, hcode, htok, hacc, huser, hav, hid, h1]

/-- C9 witness: member body without a `roles` field. -/
theorem c9_witness :
    discord_callback ⟨some "g", some "b"⟩
        ⟨some "abc", .ok ⟨some "t"⟩,
         .ok ⟨some "123", some "alice", some "hash", none, some "0"⟩,
         .ok ⟨none⟩, true, "tok"⟩ =
      ⟨.redirect (mkStatusRedirect "unauthorized_role"),
       [.tokenExchange, .userInfoFetch, .memberFetch], none⟩ :=
  (c9_absent_roles_field_fail_closed ⟨some "g", some "b"⟩
    ⟨some "abc", .ok ⟨some "t"⟩,
     .ok ⟨some "123", some "alice", some "hash", none, some "0"⟩,
     .ok ⟨none⟩, true, "tok"⟩
    ⟨some "t"⟩ ⟨some "123", some "alice", some "hash", none, some "0"⟩
    "https://cdn.discordapp.com/avatars/123/hash.png" ⟨none⟩
    rfl rfl rfl rfl rfl rfl rfl rfl rfl).2.2

/-- C6 counterexample: when `auth.create_custom_token` fails after a
successful role check, the callback terminates with the failure status
`error_firebase_token` even though the trust-issuance collaborator was
invoked (app.py lines 173-190), refuting "a callback that reaches any
failure status never invokes the trust-issuance collaborator". -/
theorem c6_firebase_failure_invokes_issuance :
    (discord_callback ⟨some "g", some "b"⟩
        ⟨some "abc", .ok ⟨some "t"⟩,
         .ok ⟨some "123", some "alice", some "hash", none, some "0"⟩,
         .ok ⟨some [REQUIRED_ROLE_ID]⟩, false, "tok"⟩).outcome =
      Outcome.redirect (mkStatusRedirect "error_firebase_token") ∧
    (discord_callback ⟨some "g", some "b"⟩
        ⟨some "abc", .ok ⟨some "t"⟩,
         .ok ⟨some "123", some "alice", some "hash", none, some "0"⟩,
         .ok ⟨some [REQUIRED_ROLE_ID]⟩, false, "tok"⟩).issuance =
      some ⟨"123", some "alice",
        "https://cdn.discordapp.com/avatars/123/hash.png", true⟩ ∧
    "error_firebase_token" ≠ "success" := by
  refine ⟨rfl, rfl, by decide⟩

/-- C6 (amended): the trust-issuance collaborator is invoked only after role
verification returned true, and any issuance carries the external user id as
subject with the derived display name, the derived avatar URL and
`has_role = true` as claims; a callback terminating in a failure status other
than `error_firebase_token` (the status of a failed issuance attempt) never
invokes the collaborator. -/
theorem c6_issuance_only_after_role_verification (cfg : Config) (inp : CallbackInput) :
    ((discord_callback cfg inp).issuance ≠ none →
      (verifyRole cfg inp.memberResp).verified = true ∧
      ∃ u pfp, inp.userResp = .ok u ∧ avatarUrlOf u = .ok pfp ∧
        truthy u.id = true ∧
        (discord_callback cfg inp).issuance =
          some ⟨u.id.getD "", displayNameOf u, pfp, true⟩) ∧
    (∀ a, (discord_callback cfg inp).outcome = .redirect a →
      a.status ≠ some "success" → a.status ≠ some "error_firebase_token" →
      (discord_callback cfg inp).issuance = none) := by
  cases hc : truthy inp.code
  · have hnone : (discord_callback cfg inp).issuance = none := by
      simp [discord_callback, hc]
    exact ⟨fun h => (h hnone).elim, fun a _ _ _ => hnone⟩
  · cases htok : inp.tokenResp
    case err =>
      have hnone : (discord_callback cfg inp).issuance = none := by
        simp [discord_callback, hc, htok]
      exact ⟨fun h => (h hnone).elim, fun a _ _ _ => hnone⟩
    case ok tj =>
      cases hacc : truthy tj.access_token
      · have hnone : (discord_callback cfg inp).issuance = none := by
          simp [discord_callback, hc, htok, hacc]
        exact ⟨fun h => (h hnone).elim, fun a _ _ _ => hnone⟩
      · cases huser : inp.userResp
        case err =>
          have hnone : (discord_callback cfg inp).issuance = none := by
            simp [discord_callback, hc, htok, hacc, huser]
          exact ⟨fun h => (h hnone).elim, fun a _ _ _ => hnone⟩
        case ok u =>
          cases hav : avatarUrlOf u
          case error e =>
            have hnone : (discord_callback cfg inp).issuance = none := by
              simp [discord_callback, hc, htok, hacc, huser, hav]
            exact ⟨fun h => (h hnone).elim, fun a _ _ _ => hnone⟩
          case ok pfp =>
            cases hid : truthy u.id
            · have hnone : (discord_callback cfg inp).issuance = none := by
                simp [discord_callback, hc, htok, hacc, huser, hav, hid]
              exact ⟨fun h => (h hnone).elim, fun a _ _ _ => hnone⟩
            · cases hes : (verifyRole cfg inp.memberResp).earlyStatus
              case some s =>
                have hnone : (discord_callback cfg inp).issuance = none := by
                  simp [discord_callback, hc, htok, hacc, huser, hav, hid, hes]
                exact ⟨fun h => (h hnone).elim, fun a _ _ _ => hnone⟩
              case none =>
                cases hver : (verifyRole cfg inp.memberResp).verified
                · have hnone : (discord_callback cfg inp).issuance = none := by
                    simp [discord_callback, hc, htok, hacc, huser, hav, hid, hes, hver]
                  exact ⟨fun h => (h hnone).elim, fun a _ _ _ => hnone⟩
                · cases hfb : inp.firebaseOk
                  · have hiss : (discord_callback cfg inp).issuance =
                        some ⟨u.id.getD "", displayNameOf u, pfp, true⟩ := by
                      simp [discord_callback, hc, htok, hacc, huser, hav, hid, hes, hver, hfb]
                    have ho : (discord_callback cfg inp).outcome =
                        .redirect (mkStatusRedirect "error_firebase_token") := by
                      simp [discord_callback, hc, htok, hacc, huser, hav, hid, hes, hver, hfb]
                    refine ⟨fun _ => ⟨rfl, u, pfp, rfl, hav, hid, hiss⟩, ?_⟩
                    intro a ha h1 h2
                    rw [ho] at ha
                    injection ha with ha
                    subst ha
                    exact absurd rfl h2
                  · have hiss : (discord_callback cfg inp).issuance =
                        some ⟨u.id.getD "", displayNameOf u, pfp, true⟩ := by
                      simp [discord_callback, hc, htok, hacc, huser, hav, hid, hes, hver, hfb]
                    have ho : (discord_callback cfg inp).outcome =
                        .redirect ⟨some inp.firebaseToken, some (u.id.getD ""),
                          displayNameOf u, some pfp, some "success"⟩ := by
                      simp [discord_callback, hc, htok, hacc, huser, hav, hid, hes, hver, hfb]
                    refine ⟨fun _ => ⟨rfl, u, pfp, rfl, hav, hid, hiss⟩, ?_⟩
                    intro a ha h1 h2
                    rw [ho] at ha
                    injection ha with ha
                    subst ha
                    exact absurd rfl h1

/-- C6 witness: on a concrete run with an issuance, role verification indeed
returned true. -/
theorem c6_witness :
    (verifyRole ⟨some "g", some "b"⟩
        (HttpResult.ok ⟨some [REQUIRED_ROLE_ID]⟩)).verified = true :=
  ((c6_issuance_only_after_role_verification ⟨some "g", some "b"⟩
      ⟨some "abc", .ok ⟨some "t"⟩,
       .ok ⟨some "123", some "alice", some "hash", none, some "0"⟩,
       .ok ⟨some [REQUIRED_ROLE_ID]⟩, true, "tok"⟩).1 (by decide)).1

/-- C10: `frontend_redirect` replaces a missing `status` parameter by the
literal `"error"` — a value outside the status enumeration the callback
emits — and each missing `token`, `discord_user_id`, `discord_username` or
`discord_pfp` parameter by `""`, and the emitted client redirect fragment
always contains all five parameters. -/
theorem c10_frontend_redirect_defaults (a : RedirectArgs) :
    (a.status = none → (resolveParams a).status = "error") ∧
    "error" ∉ callbackStatuses ∧
    (a.token = none → (resolveParams a).token = "") ∧
    (a.discord_user_id = none → (resolveParams a).discord_user_id = "") ∧
    (a.discord_username = none → (resolveParams a).discord_username = "") ∧
    (a.discord_pfp = none → (resolveParams a).discord_pfp = "") ∧
    frontend_redirect_url a =
      FRONTEND_BASE_URL ++ "#"
        ++ "token=" ++ (resolveParams a).token
        ++ "&discord_user_id=" ++ (resolveParams a).discord_user_id
        ++ "&discord_username=" ++ (resolveParams a).discord_username
        ++ "&discord_pfp=" ++ (resolveParams a).discord_pfp
        ++ "&status=" ++ (resolveParams a).status := by
  refine ⟨fun h => by simp [resolveParams, h], by decide,
    fun h => by simp [resolveParams, h], fun h => by simp [resolveParams, h],
    fun h => by simp [resolveParams, h], fun h => by simp [resolveParams, h], rfl⟩

/-- C10 witness: the all-absent request resolves to four empty strings and
status `"error"`. -/
theorem c10_witness :
    (resolveParams ⟨none, none, none, none, none⟩).status = "error" ∧
    (resolveParams ⟨none, none, none, none, none⟩).token = "" := by
  have h := c10_frontend_redirect_defaults ⟨none, none, none, none, none⟩
  exact ⟨h.1 rfl, h.2.2.1 rfl⟩

end NzPacks
